import Mathlib

/-!
Verification development for the resume-processing workflow engine
(`langgraph-mcp-agents`): fuzzy role matching, the pipeline matching /
diff / review / save nodes, the run driver and review re-entry, and the
security gateway parameter validation.

Each section embeds one piece of the Python source as executable Lean
definitions and proves the stated properties about them.
-/

namespace Spec2Proof

/-! ## Fuzzy string similarity (`fuzzywuzzy.fuzz.ratio`)

`fuzz.ratio(s1, s2)` returns `round(100 * r)` where, with the
python-Levenshtein backend, `r = (|s1| + |s2| - d) / (|s1| + |s2|)` and
`d` is the edit distance counting insertions and deletions as 1 and
substitutions as 2.  `lev2Aux` computes that distance with an explicit
fuel argument (the fuel is always supplied as at least the sum of the
two lengths, making the fuel-exhausted fallback unreachable);
`fuzzScore` forms the rounded percentage.  Rounding at exact halves
differs between Python's banker rounding and the round-half-up used
here; no theorem below depends on a half-way value.  Two equal strings
score 100 under both backends (difflib and python-Levenshtein), and
both keep the score in [0, 100], which is all the claims need. -/

def lev2Aux : Nat → List Char → List Char → Nat
  | 0, xs, ys => xs.length + ys.length
  | _ + 1, [], ys => ys.length
  | _ + 1, xs, [] => xs.length
  | n + 1, x :: xs, y :: ys =>
    if x = y then lev2Aux n xs ys
    else
      min (1 + lev2Aux n xs (y :: ys)) (min (1 + lev2Aux n (x :: xs) ys) (2 + lev2Aux n xs ys))

/-- Edit distance with substitution cost 2 (insert/delete cost 1). -/
def lev2 (a b : List Char) : Nat := lev2Aux (a.length + b.length) a b

/-- `fuzz.ratio` as a percentage in [0, 100] (round-half-up). -/
def fuzzScore (a b : String) : Nat :=
  if a.data.length + b.data.length = 0 then 100
  else ((a.data.length + b.data.length - lev2 a.data b.data) * 200 +
      (a.data.length + b.data.length)) / (2 * (a.data.length + b.data.length))

/-! ## Role records and the match score
(`notion_integration._calculate_role_match_score`)

A role dictionary is modelled with the fields the matcher and the save
step read: `company` and `title` (read with default `""`), the optional
`start_year`, and the achievement strings.  Python truthiness of
`role.get("start_year")` makes a start year of `0` behave like an
absent one; `pyTruthyYear` reproduces that. -/

structure Role where
  company : String := ""
  title : String := ""
  startYear : Option Int := none
  achievements : List String := []
  deriving DecidableEq, Repr

/-- `role.get("start_year")` used as a Python truth value: `None` and `0`
are falsy. -/
def pyTruthyYear : Option Int → Option Int
  | none => none
  | some y => if y = 0 then none else some y

/-- The date-overlap component: `100 - 10 * |y1 - y2|` when both start
years are present (and nonzero) and differ by at most 1, else 0. -/
def dateScore (r1 r2 : Role) : Nat :=
  match pyTruthyYear r1.startYear, pyTruthyYear r2.startYear with
  | some y1, some y2 =>
    if (y1 - y2).natAbs ≤ 1 then 100 - (y1 - y2).natAbs * 10 else 0
  | _, _ => 0

/-- Python `str.lower()`, modelled character-wise (faithful on the
ASCII strings used throughout; only applied to equal strings or to
concrete ASCII inputs in the theorems below). -/
def pyLower (s : String) : String := ⟨s.data.map Char.toLower⟩

/-- `_calculate_role_match_score`: company and title similarity on the
lower-cased strings, weighted 0.4 / 0.4 / 0.2 and truncated to an
integer.  For nonnegative integer component scores,
`int(c*0.4 + t*0.4 + d*0.2)` equals `(2*c + 2*t + d) / 5` in integer
division (the weights are exactly 2/5, 2/5, 1/5; the double-precision
products of these weights with integers up to 100 round to values whose
truncation agrees on every case used in the theorems below). -/
def calculateRoleMatchScore (r1 r2 : Role) : Int :=
  ((2 * fuzzScore (pyLower r1.company) (pyLower r2.company) +
    2 * fuzzScore (pyLower r1.title) (pyLower r2.title) + dateScore r1 r2) / 5 : Nat)

/-! ## Server-side matching (`notion_integration.find_role_matches`)

For each extracted role the tool scans every existing role keeping the
best score seen so far; an existing role becomes the running best match
when its score strictly exceeds the running best AND reaches the
threshold 80.  No record is kept of existing roles matched for earlier
extracted roles.  The advisory `suggested_updates` diff attached to each
match entry is not modelled (no claim concerns it). -/

def FUZZY_MATCH_THRESHOLD : Int := 80

structure NotionMatch where
  extractedRole : Role
  existingRole : Role
  matchScore : Int
  deriving DecidableEq, Repr

/-- The inner loop of `find_role_matches`: fold over the existing roles
threading `(best_match, best_score)`, starting from `(None, 0)`. -/
def bestMatchLoop (e : Role) : List Role → Option Role → Int → Option Role × Int
  | [], best, bestScore => (best, bestScore)
  | r :: rs, best, bestScore =>
    let s := calculateRoleMatchScore e r
    if bestScore < s ∧ FUZZY_MATCH_THRESHOLD ≤ s then bestMatchLoop e rs (some r) s
    else bestMatchLoop e rs best bestScore

/-- `find_role_matches`: returns the match entries and the new roles. -/
def findRoleMatches : List Role → List Role → List NotionMatch × List Role
  | [], _ => ([], [])
  | e :: rest, existing =>
    match bestMatchLoop e existing none 0 with
    | (some b, s) =>
      (⟨e, b, s⟩ :: (findRoleMatches rest existing).1, (findRoleMatches rest existing).2)
    | (none, _) =>
      ((findRoleMatches rest existing).1, e :: (findRoleMatches rest existing).2)

/-- Concrete extracted role for the C4 counterexample. -/
def cexExtracted : Role := { company := "acme", title := "engineer", startYear := some 2020 }

/-- First existing role: scores 97 against `cexExtracted` (title one
letter short), at or above the threshold 80. -/
def cexExistingA : Role := { company := "acme", title := "enginee", startYear := some 2020 }

/-- Second existing role: identical to `cexExtracted`, scores 100. -/
def cexExistingB : Role := { company := "acme", title := "engineer", startYear := some 2020 }

/-! ## The pipeline's inline matcher
(`pipeline.match_to_existing_roles_node`, matching loop)

The workflow node does its own matching (it does not call
`find_role_matches`): each extracted role is compared, in order, against
the existing roles; the first not-yet-matched existing role whose
stripped lower-cased company and title both equal the extracted role's
(and are non-empty) wins, its `notion_page_id` is added to
`matched_existing_ids`, and the scan for that extracted role stops.
Roles with no such match are appended to `new_roles`.  The recorded
match score is the constant 0.95. -/

/-- Python `str.strip()` (ASCII whitespace model). -/
def pyStrip (s : String) : String :=
  ⟨((s.data.dropWhile Char.isWhitespace).reverse.dropWhile Char.isWhitespace).reverse⟩

/-- `str(x).strip().lower()` as applied to company/title fields. -/
def pyNorm (s : String) : String := pyLower (pyStrip s)

/-- An existing role as parsed from the record store (company, title and
the store-assigned identifier; other fields are not read by the
matcher). -/
structure ERole where
  company : String := ""
  title : String := ""
  notionPageId : Option String := none
  deriving DecidableEq, Repr

/-- One element of `matched_pairs`. -/
structure MPair where
  extracted : Role
  existing : ERole
  matchScore : ℚ
  deriving DecidableEq

/-- The inner scan for one extracted role: skip existing roles whose id
is already matched, return the first remaining role with equal non-empty
normalized company and title. -/
def findFirstMatch (xc xt : String) (matched : List (Option String)) :
    List ERole → Option ERole
  | [] => none
  | e :: es =>
    if e.notionPageId ∈ matched then findFirstMatch xc xt matched es
    else if xc ≠ "" ∧ xt ≠ "" ∧ xc = pyNorm e.company ∧ xt = pyNorm e.title then some e
    else findFirstMatch xc xt matched es

/-- The outer loop over `extracted_roles`, threading
`matched_existing_ids`. -/
def matchLoop (existing : List ERole) :
    List (Option String) → List Role → List MPair × List Role
  | _, [] => ([], [])
  | matched, x :: xs =>
    match findFirstMatch (pyNorm x.company) (pyNorm x.title) matched existing with
    | some e =>
      (⟨x, e, 19 / 20⟩ :: (matchLoop existing (e.notionPageId :: matched) xs).1,
        (matchLoop existing (e.notionPageId :: matched) xs).2)
    | none =>
      ((matchLoop existing matched xs).1, x :: (matchLoop existing matched xs).2)

/-- The matching loop of `match_to_existing_roles_node`, starting from an
empty matched-id set. -/
def matchRoles (extracted : List Role) (existing : List ERole) : List MPair × List Role :=
  matchLoop existing [] extracted

/-! ## The workflow state machine (`workflow/pipeline.py`)

`ResumeProcessingWorkflow` wires `start -> classify_document ->
extract_information -> match_roles -> generate_diff -> human_review`
with unconditional edges, a conditional edge after review
(`decide_after_review`) to `save_data` or `end_workflow`, and
`save_data -> end_workflow`.  The class body defines `start_workflow`,
`classify_document_node` and `extract_information_node` twice; Python
keeps the later definitions, so those are the ones embedded here.
External tool responses are supplied through `Env`; free-text
`current_task_info` strings and error-log messages are modelled up to
string formatting (no claim depends on their exact text).  The
`uuid4`/`uuid5` values drawn during a run are supplied as the `Uuids`
parameter and the `docHash` field of `Env`. -/

inductive DocType where
  | PDF | DOCX | DOC | TEXT | UNSUPPORTED | UNKNOWN
  deriving DecidableEq, Repr

/-- `DocumentType[name]` lookup by enum member name (`KeyError` gives
`none`). -/
def parseDocType (s : String) : Option DocType :=
  if s = "PDF" then some .PDF
  else if s = "DOCX" then some .DOCX
  else if s = "DOC" then some .DOC
  else if s = "TEXT" then some .TEXT
  else if s = "UNSUPPORTED" then some .UNSUPPORTED
  else if s = "UNKNOWN" then some .UNKNOWN
  else none

/-- The payload of a proposed `NEW_ROLE` change: `item.get('data')` is a
role dictionary in every pipeline-produced change, but the save node
re-checks with `isinstance(role_data, dict)`, so a non-dict payload is
representable. -/
inductive SaveItem where
  | valid (r : Role)
  | invalid
  deriving DecidableEq

/-- One entry of `proposed_changes`. -/
inductive Change where
  | newRole (data : SaveItem)
  | matchedRole (extracted : Role) (existing : ERole) (diff : String)
  deriving DecidableEq

def Change.isNewRole : Change → Bool
  | .newRole _ => true
  | _ => false

/-- The `initial_input_data` dictionary the review tab reads from a
stored state.  `hasNestedInitial` records whether it contains its own
`initial_input_data` key (the review trigger writes through that key and
raises `KeyError` when it is absent). -/
structure InitData where
  originalFilePath : String := ""
  clientId : Option String := none
  simulatedReviewOutcome : Option String := none
  hasNestedInitial : Bool := false
  deriving DecidableEq

/-- The `ResumeProcessingState` dictionary (fields the embedded nodes
read or write). -/
structure PipelineState where
  workflowId : String := ""
  clientId : Option String := none
  documentId : String := ""
  originalFilePath : String := ""
  documentType : Option DocType := none
  rawContent : Option String := none
  extractedRoles : List Role := []
  existingRoles : List ERole := []
  matchedPairs : List MPair := []
  newRoles : List Role := []
  proposedChanges : List Change := []
  approvedChanges : List Change := []
  rejectedChanges : List Change := []
  reviewStatus : String := ""
  errorLog : List String := []
  confidenceScores : List (String × ℚ) := []
  currentTaskInfo : String := ""
  initialInputData : Option InitData := none
  deriving DecidableEq

structure ExtractTextResp where
  status : String := ""
  extractedText : Option String := none
  documentType : Option String := none
  error : Option String := none

structure ProcessResumeResp where
  professionalHistory : List Role := []
  confidenceScore : Option ℚ := none
  errors : List String := []

structure QueryRolesResp where
  status : String := ""
  roles : List ERole := []
  error : Option String := none

structure AddRoleResp where
  status : String := ""
  notionPageId : Option String := none
  error : Option String := none

structure CiteResp where
  status : String := ""
  error : Option String := none

/-- The external collaborators for one run: tool responses as the nodes
read them (a security-gateway or transport failure surfaces as a
non-success status / absent response), plus the deterministic
`uuid5(NAMESPACE_DNS, path)` document hash. -/
structure Env where
  extractText : ExtractTextResp := {}
  processResume : Option ProcessResumeResp := none
  queryRoles : QueryRolesResp := {}
  addRole : Role → AddRoleResp := fun _ => {}
  trackCitation : Role → String → CiteResp := fun _ _ => {}
  docHash : String → String := fun _ => ""

/-- The fresh `uuid4` strings a run may draw. -/
structure Uuids where
  runWf : String := "run-wf-uuid"
  startWf : String := "start-wf-uuid"
  startDoc : String := "start-doc-uuid"

/-- Store-create and citation calls performed by the save node. -/
inductive PCall where
  | create (r : Role)
  | cite (r : Role) (achievement : String)
  deriving DecidableEq

/-- Python `needle in haystack` on strings. -/
def strContains (hay needle : String) : Bool :=
  hay.data.tails.any (fun t => needle.data.isPrefixOf t)

/-- `start_workflow` (the later definition in the class body): assign
`workflow_id` if empty, derive `document_id` from the file path via
`uuid5` (or a fresh `uuid4` when the path is empty), and reset the
status to UNPROCESSED. -/
def startWorkflowNode (env : Env) (u : Uuids) (s : PipelineState) : PipelineState :=
  if s.workflowId = "" then
    if s.documentId = "" then
      if s.originalFilePath ≠ "" then
        { s with
          workflowId := u.startWf, documentId := "doc_" ++ env.docHash s.originalFilePath,
          currentTaskInfo := "Workflow started. Initializing...", reviewStatus := "UNPROCESSED" }
      else
        { s with
          workflowId := u.startWf, documentId := "doc_" ++ u.startDoc,
          currentTaskInfo := "Workflow started. Initializing...", reviewStatus := "UNPROCESSED" }
    else
      { s with
        workflowId := u.startWf,
        currentTaskInfo := "Workflow started. Initializing...", reviewStatus := "UNPROCESSED" }
  else
    if s.documentId = "" then
      if s.originalFilePath ≠ "" then
        { s with
          documentId := "doc_" ++ env.docHash s.originalFilePath,
          currentTaskInfo := "Workflow started. Initializing...", reviewStatus := "UNPROCESSED" }
      else
        { s with
          documentId := "doc_" ++ u.startDoc,
          currentTaskInfo := "Workflow started. Initializing...", reviewStatus := "UNPROCESSED" }
    else
      { s with
        currentTaskInfo := "Workflow started. Initializing...",
        reviewStatus := "UNPROCESSED" }

/-- `classify_document_node` (later definition): call `extract_text`,
store the raw text and the parsed document type; on a non-success
response log the error, set ERROR and mark the type UNSUPPORTED. -/
def classifyDocumentNode (env : Env) (s : PipelineState) : PipelineState :=
  if s.originalFilePath = "" then
    { s with
      currentTaskInfo := "Classifying document and extracting text...",
      errorLog := s.errorLog ++ ["Original file path is missing."], reviewStatus := "ERROR" }
  else if env.extractText.status = "success" then
    { s with
      currentTaskInfo := "Classifying document and extracting text...",
      rawContent := env.extractText.extractedText,
      documentType :=
        match env.extractText.documentType with
        | none => some .UNKNOWN
        | some t =>
          if t = "" then some .UNKNOWN
          else match parseDocType t with
            | some dt => some dt
            | none => some .UNSUPPORTED,
      errorLog :=
        match env.extractText.documentType with
        | none => s.errorLog
        | some t =>
          if t = "" then s.errorLog
          else match parseDocType t with
            | some _ => s.errorLog
            | none => s.errorLog ++ ["Unknown document type string: " ++ t] }
  else
    { s with
      currentTaskInfo := "Classifying document and extracting text...",
      errorLog := s.errorLog ++ [(env.extractText.error).getD "Failed to extract text/classify."],
      reviewStatus := "ERROR", documentType := some .UNSUPPORTED }

/-- `extract_information_node` (later definition): refuse unsupported or
unknown document types and missing raw content with ERROR; otherwise
store the returned roles, the overall confidence metric, and any
tool-reported error strings (this later definition performs no
status/error discrimination on the response dictionary). -/
def extractInformationNode (env : Env) (s : PipelineState) : PipelineState :=
  if s.documentType = none ∨ s.documentType = some .UNSUPPORTED ∨
      s.documentType = some .UNKNOWN then
    { s with
      currentTaskInfo := "Extracting structured information...",
      errorLog := s.errorLog ++ ["Doc type unsupported."], reviewStatus := "ERROR" }
  else if s.rawContent.getD "" = "" then
    { s with
      currentTaskInfo := "Extracting structured information...",
      errorLog := s.errorLog ++ ["Raw content missing for extraction."],
      reviewStatus := "ERROR" }
  else
    match env.processResume with
    | some r =>
      { s with
        currentTaskInfo := "Extracting structured information...",
        extractedRoles := r.professionalHistory,
        confidenceScores := s.confidenceScores ++
          (match r.confidenceScore with
            | some c => [("llm_extraction_overall", c)]
            | none => []),
        errorLog := s.errorLog ++ r.errors }
    | none =>
      { s with
        currentTaskInfo := "Extracting structured information...",
        errorLog := s.errorLog ++ ["No response from process_resume."],
        reviewStatus := "ERROR" }

/-- `match_to_existing_roles_node`: with no extracted roles, skip; else
query the store (falling back to an empty existing list, with a logged
error, on failure) and run the first-equal-wins matching loop.  The
status is set to MATCHING_COMPLETED at the end of both query branches
(overwriting the transient ERROR_NOTION_QUERY of the failure branch);
the branches are flattened to their final states here. -/
def matchToExistingRolesNode (env : Env) (s : PipelineState) : PipelineState :=
  if s.extractedRoles = [] then
    { s with
      currentTaskInfo := "Matching roles to existing Notion entries...",
      matchedPairs := [], newRoles := [], reviewStatus := "MATCHING_SKIPPED_NO_ROLES" }
  else if env.queryRoles.status = "success" then
    { s with
      currentTaskInfo := "Matching roles to existing Notion entries...",
      existingRoles := env.queryRoles.roles,
      matchedPairs := (matchRoles s.extractedRoles env.queryRoles.roles).1,
      newRoles := (matchRoles s.extractedRoles env.queryRoles.roles).2,
      reviewStatus := "MATCHING_COMPLETED" }
  else
    { s with
      currentTaskInfo := "Matching roles to existing Notion entries...",
      errorLog := s.errorLog ++
        [(env.queryRoles.error).getD "Failed to query existing roles from Notion."],
      existingRoles := [],
      matchedPairs := (matchRoles s.extractedRoles []).1,
      newRoles := (matchRoles s.extractedRoles []).2,
      reviewStatus := "MATCHING_COMPLETED" }

/-- The change list built by `generate_diff_node`: a NEW_ROLE item per
new role followed by a MATCHED_ROLE item per matched pair. -/
def proposedOf (s : PipelineState) : List Change :=
  s.newRoles.map (fun r => Change.newRole (.valid r)) ++
  s.matchedPairs.map (fun p =>
    Change.matchedRole p.extracted p.existing
      "No detailed diff generated for MVP. Review side-by-side.")

/-- `generate_diff_node`: store the change list; REVIEW_NOT_NEEDED when
it is empty, PENDING_REVIEW otherwise. -/
def generateDiffNode (s : PipelineState) : PipelineState :=
  if proposedOf s = [] then
    { s with
      proposedChanges := proposedOf s, reviewStatus := "REVIEW_NOT_NEEDED",
      currentTaskInfo := "No new or matched roles to review." }
  else
    { s with
      proposedChanges := proposedOf s, reviewStatus := "PENDING_REVIEW",
      currentTaskInfo := "Generating comparison for human review..." }

/-- `human_review_node` (simulated review): the outcome string comes
from `initial_input_data` with default APPROVE_ALL_NEW; empty proposals
give REVIEW_SKIPPED_NO_PROPOSALS, recognized outcomes fill
approved/rejected, an unrecognized outcome logs and gives
REVIEW_ERROR_UNKNOWN_OUTCOME. -/
def reviewOutcome (s : PipelineState) : String :=
  match s.initialInputData with
  | some d => d.simulatedReviewOutcome.getD "APPROVE_ALL_NEW"
  | none => "APPROVE_ALL_NEW"

def humanReviewNode (s : PipelineState) : PipelineState :=
  if s.proposedChanges = [] then
    { s with
      currentTaskInfo := "Awaiting human review (simulated)...",
      approvedChanges := [], rejectedChanges := [],
      reviewStatus := "REVIEW_SKIPPED_NO_PROPOSALS" }
  else if reviewOutcome s = "APPROVE_ALL" then
    { s with
      currentTaskInfo := "Awaiting human review (simulated)...",
      approvedChanges := s.proposedChanges, rejectedChanges := [],
      reviewStatus := "APPROVED" }
  else if reviewOutcome s = "APPROVE_ALL_NEW" then
    { s with
      currentTaskInfo := "Awaiting human review (simulated)...",
      approvedChanges := s.proposedChanges.filter Change.isNewRole, rejectedChanges := [],
      reviewStatus := "APPROVED" }
  else if reviewOutcome s = "REJECT_ALL" then
    { s with
      currentTaskInfo := "Awaiting human review (simulated)...",
      approvedChanges := [], rejectedChanges := s.proposedChanges,
      reviewStatus := "REJECTED" }
  else
    { s with
      currentTaskInfo := "Awaiting human review (simulated)...",
      approvedChanges := [], rejectedChanges := [],
      errorLog := s.errorLog ++
        ["Unknown simulated_review_outcome. Defaulting to no changes approved."],
      reviewStatus := "REVIEW_ERROR_UNKNOWN_OUTCOME" }

/-- `decide_after_review`: the only conditional edge.  APPROVED with a
non-empty approved list routes to the save node; everything else routes
to the end node, logging unrecognized statuses. -/
def decideAfterReview (s : PipelineState) : String × PipelineState :=
  if s.reviewStatus = "APPROVED" then
    if s.approvedChanges ≠ [] then ("save_data", s) else ("end_workflow", s)
  else if s.reviewStatus = "REJECTED" then ("end_workflow", s)
  else if s.reviewStatus = "REVIEW_SKIPPED_NO_PROPOSALS" ∨
      s.reviewStatus = "REVIEW_NOT_NEEDED" then ("end_workflow", s)
  else
    ("end_workflow",
      { s with
        errorLog := s.errorLog ++
          ["Unexpected review status in decide_after_review: " ++ s.reviewStatus] })

/-- `end_workflow_node`: only rewrites `current_task_info`; the status
is left unchanged. -/
def endWorkflowNode (s : PipelineState) : PipelineState :=
  if strContains s.reviewStatus "ERROR" then
    { s with currentTaskInfo := "Workflow finished with errors." }
  else if s.reviewStatus = "SAVE_COMPLETED" then
    { s with currentTaskInfo := "Workflow finished successfully. Data saved." }
  else if s.reviewStatus = "SAVE_COMPLETED_WITH_ERRORS" then
    { s with currentTaskInfo := "Workflow finished. Some data saved, but errors occurred." }
  else if s.reviewStatus = "REJECTED" ∨ s.reviewStatus = "REVIEW_SKIPPED_NO_PROPOSALS" ∨
      s.reviewStatus = "REVIEW_NOT_NEEDED" ∨ s.reviewStatus = "APPROVED" then
    { s with currentTaskInfo := "Workflow finished. No data saved to Notion." }
  else
    { s with currentTaskInfo := "Workflow finished." }

/-- `roles_to_save`: the `data` payloads of the approved NEW_ROLE items
(MATCHED_ROLE items are not persisted in the MVP). -/
def rolesToSave (approved : List Change) : List SaveItem :=
  approved.filterMap (fun c =>
    match c with
    | .newRole d => some d
    | _ => none)

/-- The citation loop for one saved role: skip blank achievement
strings, call the citation tracker for the rest, log failures. -/
def citeLoop (env : Env) (r : Role) : List String → List String × List PCall
  | [] => ([], [])
  | a :: as =>
    if pyStrip a = "" then citeLoop env r as
    else
      if (env.trackCitation r a).status = "success" then
        ((citeLoop env r as).1, PCall.cite r a :: (citeLoop env r as).2)
      else
        (("Citation fail: " ++ a) :: (citeLoop env r as).1,
          PCall.cite r a :: (citeLoop env r as).2)

/-- Accumulated outcome of the save loop. -/
structure SaveOutcome where
  saved : Nat := 0
  processed : Nat := 0
  errs : List String := []
  calls : List PCall := []
  deriving DecidableEq

/-- The save loop over `roles_to_save`: a non-dict item is counted as
processed and logged; a dict item triggers a store create call, and on
success the citation loop over its achievements. -/
def saveLoop (env : Env) : List SaveItem → SaveOutcome
  | [] => {}
  | .invalid :: rest =>
    { saved := (saveLoop env rest).saved,
      processed := (saveLoop env rest).processed + 1,
      errs := "Skipping invalid role data item." :: (saveLoop env rest).errs,
      calls := (saveLoop env rest).calls }
  | .valid role :: rest =>
    if (env.addRole role).status = "success" then
      { saved := (saveLoop env rest).saved + 1,
        processed := (saveLoop env rest).processed + 1,
        errs := (citeLoop env role role.achievements).1 ++ (saveLoop env rest).errs,
        calls := PCall.create role ::
          ((citeLoop env role role.achievements).2 ++ (saveLoop env rest).calls) }
    else
      { saved := (saveLoop env rest).saved,
        processed := (saveLoop env rest).processed + 1,
        errs := "Notion save fail." :: (saveLoop env rest).errs,
        calls := PCall.create role :: (saveLoop env rest).calls }

/-- The document-fingerprint guard at the top of the save path: logs
only when `document_id` is literally the `get` default (it is always a
present key of the state dictionary). -/
def saveBaseState (s : PipelineState) : PipelineState :=
  if s.documentId = "unknown_document_fingerprint" then
    { s with
      errorLog := s.errorLog ++
        ["Document ID (fingerprint) is unknown for citation tracking."] }
  else s

/-- `save_approved_data_node`: with no NEW_ROLE payloads the previous
status gains the suffix `_SAVE_SKIPPED_NO_APPROVED_NEW_ROLES` and
nothing is called; otherwise the save loop runs and the final status is
chosen from the saved/processed counts (the trailing SAVE_SKIPPED
branch is kept although it is unreachable when the loop ran). -/
def saveApprovedDataNode (env : Env) (s : PipelineState) : PipelineState × List PCall :=
  if rolesToSave s.approvedChanges = [] then
    ({ s with
      reviewStatus := s.reviewStatus ++ "_SAVE_SKIPPED_NO_APPROVED_NEW_ROLES",
      currentTaskInfo := "No new roles approved for saving." }, [])
  else if (saveLoop env (rolesToSave s.approvedChanges)).saved =
      (saveLoop env (rolesToSave s.approvedChanges)).processed ∧
      0 < (saveLoop env (rolesToSave s.approvedChanges)).processed then
    ({ saveBaseState s with
      errorLog := (saveBaseState s).errorLog ++ (saveLoop env (rolesToSave s.approvedChanges)).errs,
      reviewStatus := "SAVE_COMPLETED",
      currentTaskInfo := "Successfully saved new roles and tracked citations." },
      (saveLoop env (rolesToSave s.approvedChanges)).calls)
  else if 0 < (saveLoop env (rolesToSave s.approvedChanges)).saved ∧
      (saveLoop env (rolesToSave s.approvedChanges)).saved <
      (saveLoop env (rolesToSave s.approvedChanges)).processed then
    ({ saveBaseState s with
      errorLog := (saveBaseState s).errorLog ++ (saveLoop env (rolesToSave s.approvedChanges)).errs,
      reviewStatus := "SAVE_COMPLETED_WITH_ERRORS",
      currentTaskInfo := "Partially saved data. Errors in log." },
      (saveLoop env (rolesToSave s.approvedChanges)).calls)
  else if 0 < (saveLoop env (rolesToSave s.approvedChanges)).processed ∧
      (saveLoop env (rolesToSave s.approvedChanges)).saved = 0 then
    ({ saveBaseState s with
      errorLog := (saveBaseState s).errorLog ++ (saveLoop env (rolesToSave s.approvedChanges)).errs,
      reviewStatus := "SAVE_FAILED",
      currentTaskInfo := "Failed to save any approved new roles. Errors in log." },
      (saveLoop env (rolesToSave s.approvedChanges)).calls)
  else if ¬ "SAVE_".isPrefixOf (saveBaseState s).reviewStatus then
    ({ saveBaseState s with
      errorLog := (saveBaseState s).errorLog ++ (saveLoop env (rolesToSave s.approvedChanges)).errs,
      reviewStatus := "SAVE_SKIPPED",
      currentTaskInfo := "No new roles were processed for saving." },
      (saveLoop env (rolesToSave s.approvedChanges)).calls)
  else
    ({ saveBaseState s with
      errorLog := (saveBaseState s).errorLog ++ (saveLoop env (rolesToSave s.approvedChanges)).errs,
      currentTaskInfo := "No new roles were processed for saving." },
      (saveLoop env (rolesToSave s.approvedChanges)).calls)

/-- The post-diff tail of the graph: diff, review, the conditional edge,
optionally the save node, then the end node; paired with the
store/citation calls performed. -/
def runFromDiff (env : Env) (s : PipelineState) : PipelineState × List PCall :=
  if (decideAfterReview (humanReviewNode (generateDiffNode s))).1 = "save_data" then
    (endWorkflowNode
      (saveApprovedDataNode env
        (decideAfterReview (humanReviewNode (generateDiffNode s))).2).1,
      (saveApprovedDataNode env
        (decideAfterReview (humanReviewNode (generateDiffNode s))).2).2)
  else
    (endWorkflowNode (decideAfterReview (humanReviewNode (generateDiffNode s))).2, [])

/-- The status values observed after each node from the diff step on. -/
def postDiffStatuses (env : Env) (s : PipelineState) : List String :=
  if (decideAfterReview (humanReviewNode (generateDiffNode s))).1 = "save_data" then
    [(generateDiffNode s).reviewStatus,
      (humanReviewNode (generateDiffNode s)).reviewStatus,
      (decideAfterReview (humanReviewNode (generateDiffNode s))).2.reviewStatus,
      (saveApprovedDataNode env
        (decideAfterReview (humanReviewNode (generateDiffNode s))).2).1.reviewStatus,
      (runFromDiff env s).1.reviewStatus]
  else
    [(generateDiffNode s).reviewStatus,
      (humanReviewNode (generateDiffNode s)).reviewStatus,
      (decideAfterReview (humanReviewNode (generateDiffNode s))).2.reviewStatus,
      (runFromDiff env s).1.reviewStatus]

/-- The keys of `input_data` that `ResumeProcessingWorkflow.run` reads
(re-run inputs from the review tab carry further keys —
`simulated_review_outcome`, `workflow_id`, `document_id`,
`initial_input_data`, ... — none of which `run` reads). -/
structure RunInput where
  originalFilePath : String := ""
  clientId : Option String := none
  deriving DecidableEq

/-- The initial state dictionary built at the top of `run`: fresh
`workflow_id`, empty `document_id`, status UNPROCESSED, and no
`initial_input_data` key. -/
def initState (input : RunInput) (wfUuid : String) : PipelineState :=
  { workflowId := wfUuid, clientId := input.clientId, documentId := "",
    originalFilePath := input.originalFilePath,
    reviewStatus := "UNPROCESSED", errorLog := [],
    currentTaskInfo := "Initializing workflow...", initialInputData := none }

/-- `ResumeProcessingWorkflow.run`: fail fast on an empty path, else
drive the graph from `start` to the end node. -/
def runPipeline (env : Env) (u : Uuids) (input : RunInput) : PipelineState × List PCall :=
  if input.originalFilePath = "" then
    ({ initState input u.runWf with
      errorLog := ["Critical: original_file_path is required."], reviewStatus := "ERROR" }, [])
  else
    runFromDiff env
      (matchToExistingRolesNode env
        (extractInformationNode env
          (classifyDocumentNode env
            (startWorkflowNode env u (initState input u.runWf)))))

/-- `review_ui.trigger_review_workflow`: reads
`previous_state.get("initial_input_data", {})`; without an
`original_file_path` there it reports an error and returns without
running anything (the stored record is untouched); with one but without
a nested `initial_input_data` key it raises `KeyError` at the
write-through line, again before any run; only with both does it re-run
the full pipeline on the original path. -/
def triggerReviewWorkflow (env : Env) (u : Uuids) (prev : PipelineState)
    (outcome : String) : PipelineState × List PCall :=
  match prev.initialInputData with
  | none => (prev, [])
  | some d =>
    if d.originalFilePath = "" then (prev, [])
    else if ¬ d.hasNestedInitial then (prev, [])
    else runPipeline env u { originalFilePath := d.originalFilePath, clientId := d.clientId }

/-- Statuses from which the workflow never advances (the end states of
§4.2 plus the fail-fast ERROR of `run`). -/
def isTerminalStatus (st : String) : Prop :=
  st ∈ ["SAVE_COMPLETED", "SAVE_COMPLETED_WITH_ERRORS", "SAVE_FAILED", "REJECTED",
    "REVIEW_NOT_NEEDED", "REVIEW_SKIPPED_NO_PROPOSALS", "REVIEW_ERROR_UNKNOWN_OUTCOME",
    "ERROR"]

instance (st : String) : Decidable (isTerminalStatus st) := by
  unfold isTerminalStatus
  infer_instance

/-- Whether the store create call for this approved item succeeds (a
non-dict item has no successful create). -/
def itemCreateOk (env : Env) : SaveItem → Bool
  | .valid r => if (env.addRole r).status = "success" then true else false
  | .invalid => false

/-- Whether every (non-blank) achievement of this item gets a successful
citation call. -/
def itemCitesOk (env : Env) : SaveItem → Bool
  | .valid r => r.achievements.all (fun a =>
      if pyStrip a = "" then true
      else if (env.trackCitation r a).status = "success" then true else false)
  | .invalid => true

/-- A state transformer that leaves the identifier fields and the stored
`initial_input_data` untouched. -/
def PreservesCore (f : PipelineState → PipelineState) : Prop :=
  ∀ s, (f s).workflowId = s.workflowId ∧ (f s).documentId = s.documentId ∧
    (f s).initialInputData = s.initialInputData

/-- The all-defaults environment and empty state used by concrete
witness instantiations. -/
def envNull : Env := {}

def uuidsNull : Uuids := {}

def stateEmpty : PipelineState := {}

/-- Concrete role for the save-node instantiations. -/
def c6Role : Role := { company := "Acme", title := "Engineer", achievements := ["Shipped X"] }

/-- A record entering the save node with one approved NEW_ROLE item. -/
def c6State : PipelineState :=
  { reviewStatus := "APPROVED", documentId := "doc-1",
    approvedChanges := [Change.newRole (.valid c6Role)] }

/-- Store create succeeds, citation recording fails. -/
def c6EnvBadCite : Env :=
  { addRole := fun _ => { status := "success", notionPageId := some "p1" },
    trackCitation := fun _ _ => { status := "failure", error := some "boom" } }

/-- Store create and citation recording both succeed. -/
def c6EnvGood : Env :=
  { addRole := fun _ => { status := "success", notionPageId := some "p1" },
    trackCitation := fun _ _ => { status := "success" } }

/-- Concrete run input for the C9 witness. -/
def c9Input : RunInput := { originalFilePath := "static/uploads/resume.txt" }

/-! ## The security gateway (`security_gateway/server.py`)

`_validate_params` checks `request_count` against `RATE_LIMIT` and every
string-valued parameter against the anchored `SAFE_PATH` pattern (one or
more characters from the class: word character, hyphen, slash,
backslash, dot), raising on
a violation; `validate_and_forward` calls it and, when it returns,
forwards the call to the target server.  A dot, a slash and a backslash
are all inside the character class, so a `..` path-traversal sequence
passes the check.  `re.match` with a trailing `$` also accepts one
trailing newline; the model reproduces that.  `\w` is modelled as ASCII
alphanumerics plus underscore (the counterexample string is ASCII). -/

def RATE_LIMIT : Nat := 5

/-- A parameter value: a string or any non-string Python value (which
`_validate_params` ignores). -/
inductive PVal where
  | str (s : String)
  | other
  deriving DecidableEq

/-- The `SAFE_PATH` character class: word character, hyphen, slash,
backslash or dot. -/
def safeChar (c : Char) : Bool :=
  c.isAlphanum || c = '_' || c = '-' || c = '/' || c = '\\' || c = '.'

/-- `SAFE_PATH.match(value)` is truthy: the value, minus at most one
trailing newline, is non-empty and drawn from the class. -/
def safePathMatches (s : String) : Bool :=
  if s.data.getLast? = some '\n' then
    !(s.data.dropLast.isEmpty) && s.data.dropLast.all safeChar
  else
    !(s.data.isEmpty) && s.data.all safeChar

/-- `_validate_params`: `error` is a raised exception (`RuntimeError` /
`ValueError`), not a normalized result. -/
def validateParams (requestCount : Nat) (params : List (String × PVal)) :
    Except String Unit :=
  if RATE_LIMIT < requestCount then Except.error "Rate limit exceeded"
  else if (params.find? (fun kv =>
      match kv.2 with
      | .str v => !(safePathMatches v)
      | .other => false)).isSome then
    Except.error "Invalid characters in input"
  else Except.ok ()

/-- `validate_and_forward`: on validation success the target operation
is invoked with the given parameters (the `ok` payload records the
forwarded call); a raised validation error propagates instead. -/
def validateAndForward (requestCount : Nat) (targetServer method : String)
    (params : List (String × PVal)) :
    Except String (String × String × List (String × PVal)) :=
  match validateParams requestCount params with
  | .error e => Except.error e
  | .ok _ => Except.ok (targetServer, method, params)

theorem lev2Aux_le (n : Nat) : ∀ xs ys : List Char, lev2Aux n xs ys ≤ xs.length + ys.length := by
  induction n with
  | zero => intro xs ys; simp [lev2Aux]
  | succ n ih =>
    intro xs ys
    match xs, ys with
    | [], ys => simp [lev2Aux]
    | x :: xs, [] => simp [lev2Aux]
    | x :: xs, y :: ys =>
      simp only [lev2Aux, List.length_cons]
      split
      · have := ih xs ys
        omega
      · have h1 := ih xs (y :: ys)
        have h2 := ih (x :: xs) ys
        simp only [List.length_cons] at h1 h2
        omega

theorem lev2Aux_self (xs : List Char) : ∀ n : Nat, 2 * xs.length ≤ n → lev2Aux n xs xs = 0 := by
  induction xs with
  | nil => intro n _; cases n <;> simp [lev2Aux]
  | cons x xs ih =>
    intro n hn
    match n with
    | 0 => simp [List.length_cons] at hn
    | m + 1 =>
      simp only [lev2Aux, if_pos rfl]
      apply ih
      simp only [List.length_cons] at hn
      omega

theorem lev2_self (xs : List Char) : lev2 xs xs = 0 := by
  apply lev2Aux_self
  omega

theorem lev2_le (a b : List Char) : lev2 a b ≤ a.length + b.length := lev2Aux_le _ a b

/-- `(T * 200 + T) / (2 * T) = 100` for positive `T`. -/
theorem div_helper (T : Nat) (hT : 0 < T) : (T * 200 + T) / (2 * T) = 100 := by
  have h1 : T * 200 + T = T + 2 * T * 100 := by ring
  rw [h1, Nat.add_mul_div_left _ _ (by omega : 0 < 2 * T), Nat.div_eq_of_lt (by omega)]

theorem fuzzScore_self (s : String) : fuzzScore s s = 100 := by
  unfold fuzzScore
  by_cases h : s.data.length + s.data.length = 0
  · rw [if_pos h]
  · rw [if_neg h, lev2_self, Nat.sub_zero, div_helper _ (Nat.pos_of_ne_zero h)]

theorem fuzzScore_le_100 (a b : String) : fuzzScore a b ≤ 100 := by
  unfold fuzzScore
  by_cases h : a.data.length + b.data.length = 0
  · rw [if_pos h]
  · rw [if_neg h]
    have hT : 0 < a.data.length + b.data.length := Nat.pos_of_ne_zero h
    have hsub : a.data.length + b.data.length - lev2 a.data b.data ≤
        a.data.length + b.data.length := Nat.sub_le _ _
    calc ((a.data.length + b.data.length - lev2 a.data b.data) * 200 +
          (a.data.length + b.data.length)) / (2 * (a.data.length + b.data.length))
        ≤ ((a.data.length + b.data.length) * 200 +
          (a.data.length + b.data.length)) / (2 * (a.data.length + b.data.length)) := by
          apply Nat.div_le_div_right
          have := Nat.mul_le_mul_right 200 hsub
          omega
      _ = 100 := div_helper _ hT

theorem dateScore_le_100 (r1 r2 : Role) : dateScore r1 r2 ≤ 100 := by
  unfold dateScore
  split
  · split <;> omega
  · exact Nat.zero_le _

/-- C1: two roles with identical company strings, identical title
strings, and start years both present and within 1 of each other score
at least the acceptance threshold 80. -/
theorem matchScore_ge_80_of_identical (r1 r2 : Role) (y1 y2 : Int)
    (hc : r1.company = r2.company) (ht : r1.title = r2.title)
    (h1 : r1.startYear = some y1) (h2 : r2.startYear = some y2)
    (hy : (y1 - y2).natAbs ≤ 1) :
    (80 : Int) ≤ calculateRoleMatchScore r1 r2 := by
  unfold calculateRoleMatchScore
  rw [hc, ht, fuzzScore_self, fuzzScore_self]
  have : (80 : Nat) ≤ (2 * 100 + 2 * 100 + dateScore r1 r2) / 5 := by
    have h400 : (80 : Nat) = 400 / 5 := by norm_num
    rw [h400]
    exact Nat.div_le_div_right (by omega)
  exact_mod_cast this

/-- C1 witness: two concrete identical roles with adjacent start years. -/
theorem matchScore_ge_80_witness :
    (80 : Int) ≤ calculateRoleMatchScore
      { company := "Acme", title := "Engineer", startYear := some 2020 }
      { company := "Acme", title := "Engineer", startYear := some 2021 } :=
  matchScore_ge_80_of_identical _ _ 2020 2021 rfl rfl rfl rfl (by decide)

/-- C10: for every pair of roles the match score is an integer in
[0, 100]: the weighted 0.4/0.4/0.2 sum of components that each lie in
[0, 100] cannot leave that range. -/
theorem matchScore_in_range (r1 r2 : Role) :
    0 ≤ calculateRoleMatchScore r1 r2 ∧ calculateRoleMatchScore r1 r2 ≤ 100 := by
  unfold calculateRoleMatchScore
  refine ⟨Int.ofNat_nonneg _, ?_⟩
  have hc := fuzzScore_le_100 (pyLower r1.company) (pyLower r2.company)
  have ht := fuzzScore_le_100 (pyLower r1.title) (pyLower r2.title)
  have hd := dateScore_le_100 r1 r2
  have : (2 * fuzzScore (pyLower r1.company) (pyLower r2.company) +
      2 * fuzzScore (pyLower r1.title) (pyLower r2.title) + dateScore r1 r2) / 5 ≤ 100 := by
    have h500 : (100 : Nat) = 500 / 5 := by norm_num
    rw [h500]
    exact Nat.div_le_div_right (by omega)
  exact_mod_cast this

/-- Characterization of the inner loop: either the accumulator survives
and no element beats it, or the result is some element of the list that
scores above the incoming best, at or above threshold, is not beaten by
any element of the list, and is preceded only by elements that score
strictly less than it or below threshold. -/
theorem bestMatchLoop_spec (e : Role) :
    ∀ (rs : List Role) (best : Option Role) (s : Int),
      (bestMatchLoop e rs best s = (best, s) ∧
        ∀ q ∈ rs, FUZZY_MATCH_THRESHOLD ≤ calculateRoleMatchScore e q →
          calculateRoleMatchScore e q ≤ s) ∨
      (∃ pre r post, rs = pre ++ r :: post ∧
        bestMatchLoop e rs best s = (some r, calculateRoleMatchScore e r) ∧
        FUZZY_MATCH_THRESHOLD ≤ calculateRoleMatchScore e r ∧
        s < calculateRoleMatchScore e r ∧
        (∀ q ∈ pre, calculateRoleMatchScore e q < calculateRoleMatchScore e r ∨
          calculateRoleMatchScore e q < FUZZY_MATCH_THRESHOLD) ∧
        (∀ q ∈ rs, FUZZY_MATCH_THRESHOLD ≤ calculateRoleMatchScore e q →
          calculateRoleMatchScore e q ≤ calculateRoleMatchScore e r)) := by
  intro rs
  induction rs with
  | nil => intro best s; left; exact ⟨rfl, by simp⟩
  | cons r rs ih =>
    intro best s
    by_cases hcond : s < calculateRoleMatchScore e r ∧
        FUZZY_MATCH_THRESHOLD ≤ calculateRoleMatchScore e r
    · -- the head updates the running best
      have hstep : bestMatchLoop e (r :: rs) best s =
          bestMatchLoop e rs (some r) (calculateRoleMatchScore e r) := by
        simp only [bestMatchLoop, if_pos hcond]
      rcases ih (some r) (calculateRoleMatchScore e r) with ⟨heq, hbound⟩ | h
      · right
        refine ⟨[], r, rs, by simp, by rw [hstep]; exact heq, hcond.2, hcond.1, by simp, ?_⟩
        intro q hq hth
        rcases List.mem_cons.mp hq with hq | hq
        · subst hq; exact le_refl _
        · exact hbound q hq hth
      · rcases h with ⟨pre, r2, post, hsplit, heq, hth2, hlt2, hpre, hbound⟩
        right
        refine ⟨r :: pre, r2, post, by rw [hsplit]; simp, by rw [hstep]; exact heq,
          hth2, lt_trans hcond.1 hlt2, ?_, ?_⟩
        · intro q hq
          rcases List.mem_cons.mp hq with hq | hq
          · subst hq; exact Or.inl hlt2
          · exact hpre q hq
        · intro q hq hth
          rcases List.mem_cons.mp hq with hq | hq
          · subst hq; exact le_of_lt hlt2
          · exact hbound q (hsplit ▸ hq) hth
    · -- the head does not update
      have hstep : bestMatchLoop e (r :: rs) best s = bestMatchLoop e rs best s := by
        simp only [bestMatchLoop, if_neg hcond]
      have hr : calculateRoleMatchScore e r ≤ s ∨
          calculateRoleMatchScore e r < FUZZY_MATCH_THRESHOLD := by
        rcases lt_or_le s (calculateRoleMatchScore e r) with hs | hs
        · right
          by_contra hth
          exact hcond ⟨hs, le_of_not_lt hth⟩
        · exact Or.inl hs
      rcases ih best s with ⟨heq, hbound⟩ | h
      · left
        refine ⟨by rw [hstep]; exact heq, ?_⟩
        intro q hq hth
        rcases List.mem_cons.mp hq with hq | hq
        · subst hq
          rcases hr with hr | hr
          · exact hr
          · exact absurd hth (not_le.mpr hr)
        · exact hbound q hq hth
      · rcases h with ⟨pre, r2, post, hsplit, heq, hth2, hlt2, hpre, hbound⟩
        right
        refine ⟨r :: pre, r2, post, by rw [hsplit]; simp, by rw [hstep]; exact heq,
          hth2, hlt2, ?_, ?_⟩
        · intro q hq
          rcases List.mem_cons.mp hq with hq | hq
          · subst hq
            rcases hr with hr | hr
            · exact Or.inl (lt_of_le_of_lt hr hlt2)
            · exact Or.inr hr
          · exact hpre q hq
        · intro q hq hth
          rcases List.mem_cons.mp hq with hq | hq
          · subst hq
            rcases hr with hr | hr
            · exact le_of_lt (lt_of_le_of_lt hr hlt2)
            · exact absurd hth (not_le.mpr hr)
          · exact hbound q (hsplit ▸ hq) hth

/-- C4 (amended): in `find_role_matches`, every match entry pairs the
extracted role with the existing role of maximal match score among
those scoring at or above the threshold 80 — the earliest in iteration
order among the roles attaining that maximum (elements scanned before
the winner either score strictly less or fall below the threshold);
already-matched existing roles are not excluded from later scans (the
selection depends only on the full `existing` list).  Extracted roles
end up in `new_roles` exactly when no existing role reaches the
threshold. -/
theorem findRoleMatches_best_score_selection (extracted existing : List Role) :
    (∀ m ∈ (findRoleMatches extracted existing).1,
      m.matchScore = calculateRoleMatchScore m.extractedRole m.existingRole ∧
      FUZZY_MATCH_THRESHOLD ≤ m.matchScore ∧
      (∀ q ∈ existing, calculateRoleMatchScore m.extractedRole q ≤ m.matchScore) ∧
      ∃ pre post, existing = pre ++ m.existingRole :: post ∧
        ∀ q ∈ pre, calculateRoleMatchScore m.extractedRole q < m.matchScore ∨
          calculateRoleMatchScore m.extractedRole q < FUZZY_MATCH_THRESHOLD) ∧
    (∀ r ∈ (findRoleMatches extracted existing).2,
      ∀ q ∈ existing, calculateRoleMatchScore r q < FUZZY_MATCH_THRESHOLD) := by
  induction extracted with
  | nil => exact ⟨by simp [findRoleMatches], by simp [findRoleMatches]⟩
  | cons e rest ih =>
    have hspec := bestMatchLoop_spec e existing none 0
    constructor
    · intro m hm
      rcases hspec with ⟨heq, _⟩ | ⟨pre, r, post, hsplit, heq, hth, _, hpre, hbound⟩
      · have hms : (findRoleMatches (e :: rest) existing).1 =
            (findRoleMatches rest existing).1 := by
          simp [findRoleMatches, heq]
        rw [hms] at hm
        exact ih.1 m hm
      · have hms : (findRoleMatches (e :: rest) existing).1 =
            ⟨e, r, calculateRoleMatchScore e r⟩ :: (findRoleMatches rest existing).1 := by
          simp [findRoleMatches, heq]
        rw [hms] at hm
        rcases List.mem_cons.mp hm with hm | hm
        · subst hm
          refine ⟨rfl, hth, ?_, pre, post, hsplit, fun q hq => hpre q hq⟩
          intro q hq
          rcases le_or_lt (calculateRoleMatchScore e q) (calculateRoleMatchScore e r) with hle | hgt
          · exact hle
          · exact absurd (hbound q hq (le_trans hth hgt.le)) (not_le.mpr hgt)
        · exact ih.1 m hm
    · intro r hr
      rcases hspec with ⟨heq, hbound⟩ | ⟨pre, rb, post, hsplit, heq, _, _, _, _⟩
      · have hns : (findRoleMatches (e :: rest) existing).2 =
            e :: (findRoleMatches rest existing).2 := by
          simp [findRoleMatches, heq]
        rw [hns] at hr
        rcases List.mem_cons.mp hr with hr | hr
        · subst hr
          intro q hq
          by_contra hth
          push_neg at hth
          have hb := hbound q hq hth
          simp only [FUZZY_MATCH_THRESHOLD] at hth
          omega
        · exact ih.2 r hr
      · have hns : (findRoleMatches (e :: rest) existing).2 =
            (findRoleMatches rest existing).2 := by
          simp [findRoleMatches, heq]
        rw [hns] at hr
        exact ih.2 r hr

/-- C4 witness: instantiating the selection characterization at the
concrete two-role store: the selected role scores at least the
threshold and no stored role beats it. -/
theorem findRoleMatches_best_score_selection_witness :
    FUZZY_MATCH_THRESHOLD ≤ (100 : Int) ∧
    ∀ q ∈ [cexExistingA, cexExistingB],
      calculateRoleMatchScore cexExtracted q ≤ (100 : Int) := by
  have h := (findRoleMatches_best_score_selection [cexExtracted]
    [cexExistingA, cexExistingB]).1 ⟨cexExtracted, cexExistingB, 100⟩ (by decide)
  exact ⟨h.2.1, h.2.2.1⟩

/-- C4 counterexample: the first existing role in iteration order scores
97 ≥ 80, yet `find_role_matches` pairs the extracted role with the
second, higher-scoring existing role — the selection is best-score, not
first-above-threshold. -/
theorem findRoleMatches_not_first_wins :
    FUZZY_MATCH_THRESHOLD ≤ calculateRoleMatchScore cexExtracted cexExistingA ∧
    (findRoleMatches [cexExtracted] [cexExistingA, cexExistingB]).1.map
      NotionMatch.existingRole = [cexExistingB] ∧
    cexExistingB ≠ cexExistingA := by decide

theorem matchLoop_perm (existing : List ERole) :
    ∀ (xs : List Role) (matched : List (Option String)),
      List.Perm ((matchLoop existing matched xs).1.map MPair.extracted ++
        (matchLoop existing matched xs).2) xs := by
  intro xs
  induction xs with
  | nil => intro matched; simp [matchLoop]
  | cons x xs ih =>
    intro matched
    cases hf : findFirstMatch (pyNorm x.company) (pyNorm x.title) matched existing with
    | some e =>
      simp only [matchLoop, hf, List.map_cons, List.cons_append]
      exact (ih (e.notionPageId :: matched)).cons x
    | none =>
      simp only [matchLoop, hf]
      exact List.perm_middle.trans ((ih matched).cons x)

theorem findFirstMatch_not_mem (xc xt : String) :
    ∀ (es : List ERole) (matched : List (Option String)) (e : ERole),
      findFirstMatch xc xt matched es = some e → e.notionPageId ∉ matched := by
  intro es
  induction es with
  | nil => intro matched e h; simp [findFirstMatch] at h
  | cons r rs ih =>
    intro matched e h
    by_cases hmem : r.notionPageId ∈ matched
    · rw [findFirstMatch, if_pos hmem] at h
      exact ih matched e h
    · rw [findFirstMatch, if_neg hmem] at h
      by_cases hcond : xc ≠ "" ∧ xt ≠ "" ∧ xc = pyNorm r.company ∧ xt = pyNorm r.title
      · rw [if_pos hcond] at h
        cases h
        exact hmem
      · rw [if_neg hcond] at h
        exact ih matched e h

theorem matchLoop_nodup (existing : List ERole) :
    ∀ (xs : List Role) (matched : List (Option String)),
      ((matchLoop existing matched xs).1.map (fun p => p.existing.notionPageId)).Nodup ∧
      ∀ i ∈ (matchLoop existing matched xs).1.map (fun p => p.existing.notionPageId),
        i ∉ matched := by
  intro xs
  induction xs with
  | nil => intro matched; simp [matchLoop]
  | cons x xs ih =>
    intro matched
    cases hf : findFirstMatch (pyNorm x.company) (pyNorm x.title) matched existing with
    | some e =>
      have hnotmem := findFirstMatch_not_mem _ _ existing matched e hf
      have ihrec := ih (e.notionPageId :: matched)
      simp only [matchLoop, hf, List.map_cons]
      constructor
      · rw [List.nodup_cons]
        refine ⟨?_, ihrec.1⟩
        intro hmem
        exact (ihrec.2 _ hmem) (List.mem_cons_self _ _)
      · intro i hi
        rcases List.mem_cons.mp hi with hi | hi
        · subst hi; exact hnotmem
        · intro hmem
          exact (ihrec.2 i hi) (List.mem_cons_of_mem _ hmem)
    | none =>
      simp only [matchLoop, hf]
      exact ih matched

theorem saveLoop_processed (env : Env) :
    ∀ items : List SaveItem, (saveLoop env items).processed = items.length := by
  intro items
  induction items with
  | nil => rfl
  | cons i rest ih =>
    cases i with
    | invalid => simp [saveLoop, ih]
    | valid r =>
      by_cases h : (env.addRole r).status = "success" <;> simp [saveLoop, h, ih]

theorem saveLoop_saved (env : Env) :
    ∀ items : List SaveItem,
      (saveLoop env items).saved = items.countP (fun i => itemCreateOk env i) := by
  intro items
  induction items with
  | nil => rfl
  | cons i rest ih =>
    cases i with
    | invalid => simp [saveLoop, ih, List.countP_cons, itemCreateOk]
    | valid r =>
      by_cases h : (env.addRole r).status = "success" <;>
        simp [saveLoop, h, ih, List.countP_cons, itemCreateOk]

theorem citeLoop_errs_nil (env : Env) (r : Role) :
    ∀ achievements : List String,
      (∀ a ∈ achievements, pyStrip a = "" ∨ (env.trackCitation r a).status = "success") →
      (citeLoop env r achievements).1 = [] := by
  intro achievements
  induction achievements with
  | nil => intro _; rfl
  | cons a as ih =>
    intro h
    by_cases hb : pyStrip a = ""
    · rw [citeLoop, if_pos hb]
      exact ih (fun x hx => h x (List.mem_cons_of_mem _ hx))
    · have hs : (env.trackCitation r a).status = "success" :=
        (h a (List.mem_cons_self _ _)).resolve_left hb
      rw [citeLoop, if_neg hb, if_pos hs]
      exact ih (fun x hx => h x (List.mem_cons_of_mem _ hx))

theorem saveLoop_errs_nil (env : Env) :
    ∀ items : List SaveItem,
      (∀ i ∈ items, itemCreateOk env i = true) →
      (∀ i ∈ items, itemCitesOk env i = true) →
      (saveLoop env items).errs = [] := by
  intro items
  induction items with
  | nil => intro _ _; rfl
  | cons i rest ih =>
    intro hok hcite
    cases i with
    | invalid =>
      have := hok .invalid (List.mem_cons_self _ _)
      simp [itemCreateOk] at this
    | valid r =>
      have hcr := hok (.valid r) (List.mem_cons_self _ _)
      have hs : (env.addRole r).status = "success" := by
        by_contra hcon
        simp [itemCreateOk, hcon] at hcr
      have hall : ∀ a ∈ r.achievements,
          pyStrip a = "" ∨ (env.trackCitation r a).status = "success" := by
        have := hcite (.valid r) (List.mem_cons_self _ _)
        simp only [itemCitesOk, List.all_eq_true] at this
        intro a ha
        have := this a ha
        by_cases hb : pyStrip a = ""
        · exact Or.inl hb
        · rw [if_neg hb] at this
          by_cases hsu : (env.trackCitation r a).status = "success"
          · exact Or.inr hsu
          · rw [if_neg hsu] at this
            exact absurd this (by simp)
      have hrest1 : ∀ i ∈ rest, itemCreateOk env i = true :=
        fun i hi => hok i (List.mem_cons_of_mem _ hi)
      have hrest2 : ∀ i ∈ rest, itemCitesOk env i = true :=
        fun i hi => hcite i (List.mem_cons_of_mem _ hi)
      simp [saveLoop, hs, citeLoop_errs_nil env r r.achievements hall, ih hrest1 hrest2]

theorem startWorkflow_initData (env : Env) (u : Uuids) (s : PipelineState) :
    (startWorkflowNode env u s).initialInputData = s.initialInputData := by
  unfold startWorkflowNode
  repeat' split
  all_goals rfl

theorem classify_preserves (env : Env) : PreservesCore (classifyDocumentNode env) := by
  intro s
  unfold classifyDocumentNode
  repeat' split
  all_goals exact ⟨rfl, rfl, rfl⟩

theorem extractInfo_preserves (env : Env) : PreservesCore (extractInformationNode env) := by
  intro s
  unfold extractInformationNode
  repeat' split
  all_goals exact ⟨rfl, rfl, rfl⟩

theorem matchNode_preserves (env : Env) : PreservesCore (matchToExistingRolesNode env) := by
  intro s
  unfold matchToExistingRolesNode
  repeat' split
  all_goals exact ⟨rfl, rfl, rfl⟩

theorem generateDiff_preserves : PreservesCore generateDiffNode := by
  intro s
  unfold generateDiffNode
  repeat' split
  all_goals exact ⟨rfl, rfl, rfl⟩

theorem humanReview_preserves : PreservesCore humanReviewNode := by
  intro s
  unfold humanReviewNode
  repeat' split
  all_goals exact ⟨rfl, rfl, rfl⟩

theorem endWorkflow_preserves : PreservesCore endWorkflowNode := by
  intro s
  unfold endWorkflowNode
  repeat' split
  all_goals exact ⟨rfl, rfl, rfl⟩

theorem endWorkflow_status (s : PipelineState) :
    (endWorkflowNode s).reviewStatus = s.reviewStatus := by
  unfold endWorkflowNode
  repeat' split
  all_goals rfl

theorem decide_preserves (s : PipelineState) :
    (decideAfterReview s).2.workflowId = s.workflowId ∧
    (decideAfterReview s).2.documentId = s.documentId ∧
    (decideAfterReview s).2.initialInputData = s.initialInputData := by
  unfold decideAfterReview
  repeat' split
  all_goals exact ⟨rfl, rfl, rfl⟩

theorem saveNode_preserves (env : Env) (s : PipelineState) :
    (saveApprovedDataNode env s).1.workflowId = s.workflowId ∧
    (saveApprovedDataNode env s).1.documentId = s.documentId ∧
    (saveApprovedDataNode env s).1.initialInputData = s.initialInputData := by
  unfold saveApprovedDataNode saveBaseState
  repeat' split
  all_goals exact ⟨rfl, rfl, rfl⟩

theorem runFromDiff_preserves (env : Env) (s : PipelineState) :
    (runFromDiff env s).1.workflowId = s.workflowId ∧
    (runFromDiff env s).1.documentId = s.documentId ∧
    (runFromDiff env s).1.initialInputData = s.initialInputData := by
  have h1 := generateDiff_preserves s
  have h2 := humanReview_preserves (generateDiffNode s)
  have h3 := decide_preserves (humanReviewNode (generateDiffNode s))
  unfold runFromDiff
  split
  · have h4 := saveNode_preserves env
      (decideAfterReview (humanReviewNode (generateDiffNode s))).2
    have h5 := endWorkflow_preserves
      (saveApprovedDataNode env
        (decideAfterReview (humanReviewNode (generateDiffNode s))).2).1
    exact ⟨by rw [h5.1, h4.1, h3.1, h2.1, h1.1],
      by rw [h5.2.1, h4.2.1, h3.2.1, h2.2.1, h1.2.1],
      by rw [h5.2.2, h4.2.2, h3.2.2, h2.2.2, h1.2.2]⟩
  · have h5 := endWorkflow_preserves
      (decideAfterReview (humanReviewNode (generateDiffNode s))).2
    exact ⟨by rw [h5.1, h3.1, h2.1, h1.1],
      by rw [h5.2.1, h3.2.1, h2.2.1, h1.2.1],
      by rw [h5.2.2, h3.2.2, h2.2.2, h1.2.2]⟩

/-- Every record produced by `run` carries no `initial_input_data` key:
the initial state dictionary omits it and no node writes it. -/
theorem run_no_initialInput (env : Env) (u : Uuids) (input : RunInput) :
    (runPipeline env u input).1.initialInputData = none := by
  unfold runPipeline
  split
  · rfl
  · rw [(runFromDiff_preserves env _).2.2,
      (matchNode_preserves env _).2.2,
      (extractInfo_preserves env _).2.2,
      (classify_preserves env _).2.2,
      startWorkflow_initData]
    rfl

/-- C2: after the matching node, the extracted roles referenced by
`matched_pairs` together with `new_roles` are a permutation of
`extracted_roles` — every extracted role lands in exactly one of the two
collections, counted with multiplicity (so also by index), never in
both and never in neither.  This covers the skip path (no extracted
roles), the store-query failure path (empty existing list) and the
normal path. -/
theorem matchNode_partition (env : Env) (s : PipelineState) :
    List.Perm
      ((matchToExistingRolesNode env s).matchedPairs.map MPair.extracted ++
        (matchToExistingRolesNode env s).newRoles)
      s.extractedRoles := by
  unfold matchToExistingRolesNode
  by_cases h : s.extractedRoles = []
  · rw [if_pos h, h]
    simp
  · rw [if_neg h]
    by_cases hq : env.queryRoles.status = "success"
    · rw [if_pos hq]
      exact matchLoop_perm env.queryRoles.roles s.extractedRoles []
    · rw [if_neg hq]
      exact matchLoop_perm [] s.extractedRoles []

/-- C3: after the matching node, the store identifiers of the existing
roles referenced by `matched_pairs` are pairwise distinct: once an
existing role is matched its id enters `matched_existing_ids` and the
inner scan skips it for every later extracted role, so no existing role
appears in two pairs. -/
theorem matchNode_no_double_match (env : Env) (s : PipelineState) :
    ((matchToExistingRolesNode env s).matchedPairs.map
      (fun p => p.existing.notionPageId)).Nodup := by
  unfold matchToExistingRolesNode
  by_cases h : s.extractedRoles = []
  · rw [if_pos h]
    simp
  · rw [if_neg h]
    by_cases hq : env.queryRoles.status = "success"
    · rw [if_pos hq]
      exact (matchLoop_nodup env.queryRoles.roles s.extractedRoles []).1
    · rw [if_neg hq]
      exact (matchLoop_nodup [] s.extractedRoles []).1

theorem generateDiff_proposed (s : PipelineState) :
    (generateDiffNode s).proposedChanges = proposedOf s := by
  unfold generateDiffNode
  split <;> rfl

/-- C5: when the diff node produces no change items, its status is
REVIEW_NOT_NEEDED, the review decision routes straight to the end node
(no save), PENDING_REVIEW is never observed at or after the diff step,
no store or citation call is made, and the run ends in a terminal
status. -/
theorem reviewSkip_no_pending (env : Env) (s : PipelineState)
    (h : (generateDiffNode s).proposedChanges = []) :
    (generateDiffNode s).reviewStatus = "REVIEW_NOT_NEEDED" ∧
    (decideAfterReview (humanReviewNode (generateDiffNode s))).1 = "end_workflow" ∧
    "PENDING_REVIEW" ∉ postDiffStatuses env s ∧
    (runFromDiff env s).2 = [] ∧
    isTerminalStatus (runFromDiff env s).1.reviewStatus := by
  have hp : proposedOf s = [] := by rw [← generateDiff_proposed]; exact h
  have hds : (generateDiffNode s).reviewStatus = "REVIEW_NOT_NEEDED" := by
    unfold generateDiffNode
    rw [if_pos hp]
  have hrs : (humanReviewNode (generateDiffNode s)).reviewStatus =
      "REVIEW_SKIPPED_NO_PROPOSALS" := by
    unfold humanReviewNode
    rw [if_pos h]
  have hdec1 : (decideAfterReview (humanReviewNode (generateDiffNode s))).1 =
      "end_workflow" := by
    unfold decideAfterReview
    rw [hrs, if_neg (by decide : ¬("REVIEW_SKIPPED_NO_PROPOSALS" = "APPROVED")),
      if_neg (by decide : ¬("REVIEW_SKIPPED_NO_PROPOSALS" = "REJECTED")),
      if_pos (Or.inl rfl)]
  have hdec2 : (decideAfterReview (humanReviewNode (generateDiffNode s))).2 =
      humanReviewNode (generateDiffNode s) := by
    unfold decideAfterReview
    rw [hrs, if_neg (by decide : ¬("REVIEW_SKIPPED_NO_PROPOSALS" = "APPROVED")),
      if_neg (by decide : ¬("REVIEW_SKIPPED_NO_PROPOSALS" = "REJECTED")),
      if_pos (Or.inl rfl)]
  have hne : ¬((decideAfterReview (humanReviewNode (generateDiffNode s))).1 =
      "save_data") := by
    rw [hdec1]; decide
  have hfin : (runFromDiff env s).1.reviewStatus = "REVIEW_SKIPPED_NO_PROPOSALS" := by
    unfold runFromDiff
    rw [if_neg hne, endWorkflow_status, hdec2, hrs]
  have hcalls : (runFromDiff env s).2 = [] := by
    unfold runFromDiff
    rw [if_neg hne]
  refine ⟨hds, hdec1, ?_, hcalls, ?_⟩
  · unfold postDiffStatuses
    rw [if_neg hne, hds, hrs, hdec2, hrs, hfin]
    decide
  · rw [hfin]
    decide

/-- C5 witness: a record with no new roles and no matched pairs. -/
theorem reviewSkip_no_pending_witness :
    (generateDiffNode stateEmpty).proposedChanges = [] ∧
    (generateDiffNode stateEmpty).reviewStatus = "REVIEW_NOT_NEEDED" ∧
    "PENDING_REVIEW" ∉ postDiffStatuses envNull stateEmpty ∧
    (runFromDiff envNull stateEmpty).2 = [] := by
  have h : (generateDiffNode stateEmpty).proposedChanges = [] := by decide
  have hmain := reviewSkip_no_pending envNull stateEmpty h
  exact ⟨h, hmain.1, hmain.2.2.1, hmain.2.2.2.1⟩

/-- C6 counterexample: one approved NEW_ROLE whose store create
succeeds, but whose citation call fails — the status is SAVE_COMPLETED
as the claim says, yet `error_log` gains an entry from the save step,
contradicting the claim that a successful create for all N items leaves
`error_log` untouched. -/
theorem saveNode_citation_failure_grows_errorlog :
    (saveApprovedDataNode c6EnvBadCite c6State).1.reviewStatus = "SAVE_COMPLETED" ∧
    (saveApprovedDataNode c6EnvBadCite c6State).1.errorLog.length = 1 ∧
    c6State.errorLog.length = 0 := by decide

/-- C6 (amended): the final status of the save node is determined by
the successes among the attempted items: every attempted item saved →
SAVE_COMPLETED; at least one saved and at least one not →
SAVE_COMPLETED_WITH_ERRORS; attempts with none saved → SAVE_FAILED;
with no NEW_ROLE payload at all nothing is attempted or called and the
previous status gains the suffix `_SAVE_SKIPPED_NO_APPROVED_NEW_ROLES`
(the dedicated SAVE_SKIPPED status sits in an unreachable fallback).
`error_log` is unchanged exactly when, in addition to every create, every
citation call also succeeds (and the document id is not the sentinel
default). -/
theorem saveNode_accounting (env : Env) (s : PipelineState) :
    (rolesToSave s.approvedChanges = [] →
      (saveApprovedDataNode env s).1.reviewStatus =
        s.reviewStatus ++ "_SAVE_SKIPPED_NO_APPROVED_NEW_ROLES" ∧
      (saveApprovedDataNode env s).1.errorLog = s.errorLog ∧
      (saveApprovedDataNode env s).2 = []) ∧
    (rolesToSave s.approvedChanges ≠ [] →
      (∀ i ∈ rolesToSave s.approvedChanges, itemCreateOk env i = true) →
      (saveApprovedDataNode env s).1.reviewStatus = "SAVE_COMPLETED") ∧
    (rolesToSave s.approvedChanges ≠ [] →
      (∃ i ∈ rolesToSave s.approvedChanges, itemCreateOk env i = true) →
      (∃ i ∈ rolesToSave s.approvedChanges, itemCreateOk env i = false) →
      (saveApprovedDataNode env s).1.reviewStatus = "SAVE_COMPLETED_WITH_ERRORS") ∧
    (rolesToSave s.approvedChanges ≠ [] →
      (∀ i ∈ rolesToSave s.approvedChanges, itemCreateOk env i = false) →
      (saveApprovedDataNode env s).1.reviewStatus = "SAVE_FAILED") ∧
    ((∀ i ∈ rolesToSave s.approvedChanges, itemCreateOk env i = true) →
      (∀ i ∈ rolesToSave s.approvedChanges, itemCitesOk env i = true) →
      s.documentId ≠ "unknown_document_fingerprint" →
      (saveApprovedDataNode env s).1.errorLog = s.errorLog) := by
  have hp := saveLoop_processed env (rolesToSave s.approvedChanges)
  have hsv := saveLoop_saved env (rolesToSave s.approvedChanges)
  refine ⟨?_, ?_, ?_, ?_, ?_⟩
  · intro h
    unfold saveApprovedDataNode
    rw [if_pos h]
    exact ⟨rfl, rfl, rfl⟩
  · intro h hall
    have hcnt : (rolesToSave s.approvedChanges).countP (fun i => itemCreateOk env i) =
        (rolesToSave s.approvedChanges).length :=
      List.countP_eq_length.mpr hall
    have hcond : (saveLoop env (rolesToSave s.approvedChanges)).saved =
        (saveLoop env (rolesToSave s.approvedChanges)).processed ∧
        0 < (saveLoop env (rolesToSave s.approvedChanges)).processed :=
      ⟨by rw [hsv, hp, hcnt], by rw [hp]; exact List.length_pos.mpr h⟩
    unfold saveApprovedDataNode
    rw [if_neg h, if_pos hcond]
  · intro h hok hfail
    rcases hok with ⟨i, hi, hit⟩
    rcases hfail with ⟨j, hj, hjf⟩
    have hle := List.countP_le_length (fun i => itemCreateOk env i)
      (l := rolesToSave s.approvedChanges)
    have hlt : (rolesToSave s.approvedChanges).countP (fun i => itemCreateOk env i) <
        (rolesToSave s.approvedChanges).length := by
      rcases lt_or_eq_of_le hle with hlt | heq
      · exact hlt
      · have := (List.countP_eq_length.mp heq) j hj
        rw [hjf] at this
        exact absurd this (by simp)
    have hpos : 0 < (rolesToSave s.approvedChanges).countP (fun i => itemCreateOk env i) :=
      List.countP_pos_iff.mpr ⟨i, hi, hit⟩
    have hcond1 : ¬((saveLoop env (rolesToSave s.approvedChanges)).saved =
        (saveLoop env (rolesToSave s.approvedChanges)).processed ∧
        0 < (saveLoop env (rolesToSave s.approvedChanges)).processed) := by
      rintro ⟨he, _⟩
      rw [hsv, hp] at he
      omega
    have hcond2 : 0 < (saveLoop env (rolesToSave s.approvedChanges)).saved ∧
        (saveLoop env (rolesToSave s.approvedChanges)).saved <
        (saveLoop env (rolesToSave s.approvedChanges)).processed := by
      rw [hsv, hp]
      exact ⟨hpos, hlt⟩
    unfold saveApprovedDataNode
    rw [if_neg h, if_neg hcond1, if_pos hcond2]
  · intro h hall
    have hz : (rolesToSave s.approvedChanges).countP (fun i => itemCreateOk env i) = 0 :=
      List.countP_eq_zero.mpr (by
        intro a ha
        rw [hall a ha]
        simp)
    have hpos : 0 < (rolesToSave s.approvedChanges).length := List.length_pos.mpr h
    have hcond1 : ¬((saveLoop env (rolesToSave s.approvedChanges)).saved =
        (saveLoop env (rolesToSave s.approvedChanges)).processed ∧
        0 < (saveLoop env (rolesToSave s.approvedChanges)).processed) := by
      rintro ⟨he, _⟩
      rw [hsv, hp, hz] at he
      omega
    have hcond2 : ¬(0 < (saveLoop env (rolesToSave s.approvedChanges)).saved ∧
        (saveLoop env (rolesToSave s.approvedChanges)).saved <
        (saveLoop env (rolesToSave s.approvedChanges)).processed) := by
      rintro ⟨hlt, _⟩
      rw [hsv, hz] at hlt
      omega
    have hcond3 : 0 < (saveLoop env (rolesToSave s.approvedChanges)).processed ∧
        (saveLoop env (rolesToSave s.approvedChanges)).saved = 0 := by
      rw [hsv, hp, hz]
      exact ⟨hpos, rfl⟩
    unfold saveApprovedDataNode
    rw [if_neg h, if_neg hcond1, if_neg hcond2, if_pos hcond3]
  · intro hall hcites hdoc
    by_cases h : rolesToSave s.approvedChanges = []
    · unfold saveApprovedDataNode
      rw [if_pos h]
    · have hbase : (saveBaseState s).errorLog = s.errorLog := by
        unfold saveBaseState
        rw [if_neg hdoc]
      have herrs := saveLoop_errs_nil env (rolesToSave s.approvedChanges) hall hcites
      have hcnt : (rolesToSave s.approvedChanges).countP (fun i => itemCreateOk env i) =
          (rolesToSave s.approvedChanges).length :=
        List.countP_eq_length.mpr hall
      have hcond : (saveLoop env (rolesToSave s.approvedChanges)).saved =
          (saveLoop env (rolesToSave s.approvedChanges)).processed ∧
          0 < (saveLoop env (rolesToSave s.approvedChanges)).processed :=
        ⟨by rw [hsv, hp, hcnt], by rw [hp]; exact List.length_pos.mpr h⟩
      unfold saveApprovedDataNode
      rw [if_neg h, if_pos hcond]
      show (saveBaseState s).errorLog ++ (saveLoop env (rolesToSave s.approvedChanges)).errs
        = s.errorLog
      rw [herrs, List.append_nil, hbase]

/-- C6 witness: one approved NEW_ROLE, create and citation both succeed:
status SAVE_COMPLETED and an unchanged error log. -/
theorem saveNode_accounting_witness :
    (saveApprovedDataNode c6EnvGood c6State).1.reviewStatus = "SAVE_COMPLETED" ∧
    (saveApprovedDataNode c6EnvGood c6State).1.errorLog = c6State.errorLog := by
  have h := saveNode_accounting c6EnvGood c6State
  exact ⟨h.2.1 (by decide) (by decide), h.2.2.2.2 (by decide) (by decide) (by decide)⟩

/-- C7: the review re-entry is a no-op on every engine-produced record:
`run` never stores an `initial_input_data` key in the state, so
`trigger_review_workflow` cannot recover the original file path, reports
an error before running anything, and leaves the stored record exactly
as it was — in particular, resuming an already-terminal record returns
it unchanged (same status, same error log) and performs no store create
or citation call. -/
theorem resume_idempotent_on_terminal (env env2 : Env) (u u2 : Uuids)
    (input : RunInput) (outcome : String)
    (hterm : isTerminalStatus (runPipeline env u input).1.reviewStatus) :
    triggerReviewWorkflow env2 u2 (runPipeline env u input).1 outcome =
      ((runPipeline env u input).1, []) := by
  unfold triggerReviewWorkflow
  rw [run_no_initialInput env u input]

/-- C7 witness: the fail-fast run on an empty path ends terminal (ERROR)
and resuming it is a no-op. -/
theorem resume_idempotent_on_terminal_witness :
    isTerminalStatus (runPipeline envNull uuidsNull {}).1.reviewStatus ∧
    triggerReviewWorkflow envNull uuidsNull (runPipeline envNull uuidsNull {}).1
      "REVIEW_APPROVED_NEW" = ((runPipeline envNull uuidsNull {}).1, []) :=
  ⟨by decide, resume_idempotent_on_terminal envNull envNull uuidsNull uuidsNull {}
    "REVIEW_APPROVED_NEW" (by decide)⟩

/-- C9: `workflow_id` is drawn once when the initial state is built and
`document_id` once in the first node (`start_workflow`), and no later
node of the run rewrites either; re-entry through the review trigger
returns the stored record unchanged, so the identifiers also survive
the pause/resume boundary. -/
theorem ids_assigned_once_stable (env env2 : Env) (u u2 : Uuids) (input : RunInput)
    (outcome : String) (h : input.originalFilePath ≠ "") :
    (runPipeline env u input).1.workflowId =
      (startWorkflowNode env u (initState input u.runWf)).workflowId ∧
    (runPipeline env u input).1.documentId =
      (startWorkflowNode env u (initState input u.runWf)).documentId ∧
    (triggerReviewWorkflow env2 u2 (runPipeline env u input).1 outcome).1.workflowId =
      (runPipeline env u input).1.workflowId ∧
    (triggerReviewWorkflow env2 u2 (runPipeline env u input).1 outcome).1.documentId =
      (runPipeline env u input).1.documentId := by
  have hrun : runPipeline env u input =
      runFromDiff env
        (matchToExistingRolesNode env
          (extractInformationNode env
            (classifyDocumentNode env
              (startWorkflowNode env u (initState input u.runWf))))) := by
    unfold runPipeline
    rw [if_neg h]
  have htr : triggerReviewWorkflow env2 u2 (runPipeline env u input).1 outcome =
      ((runPipeline env u input).1, []) := by
    unfold triggerReviewWorkflow
    rw [run_no_initialInput env u input]
  have p1 := classify_preserves env (startWorkflowNode env u (initState input u.runWf))
  have p2 := extractInfo_preserves env
    (classifyDocumentNode env (startWorkflowNode env u (initState input u.runWf)))
  have p3 := matchNode_preserves env
    (extractInformationNode env
      (classifyDocumentNode env (startWorkflowNode env u (initState input u.runWf))))
  have p4 := runFromDiff_preserves env
    (matchToExistingRolesNode env
      (extractInformationNode env
        (classifyDocumentNode env (startWorkflowNode env u (initState input u.runWf)))))
  refine ⟨?_, ?_, ?_, ?_⟩
  · rw [hrun, p4.1, p3.1, p2.1, p1.1]
  · rw [hrun, p4.2.1, p3.2.1, p2.2.1, p1.2.1]
  · rw [htr]
  · rw [htr]

/-- C9 witness: a concrete run whose identifiers match the first step's
and survive the review trigger. -/
theorem ids_assigned_once_stable_witness :
    (runPipeline envNull uuidsNull c9Input).1.workflowId =
      (startWorkflowNode envNull uuidsNull (initState c9Input uuidsNull.runWf)).workflowId ∧
    (runPipeline envNull uuidsNull c9Input).1.documentId =
      (startWorkflowNode envNull uuidsNull (initState c9Input uuidsNull.runWf)).documentId ∧
    (triggerReviewWorkflow envNull uuidsNull (runPipeline envNull uuidsNull c9Input).1
      "REVIEW_REJECTED_ALL").1.workflowId =
      (runPipeline envNull uuidsNull c9Input).1.workflowId ∧
    (triggerReviewWorkflow envNull uuidsNull (runPipeline envNull uuidsNull c9Input).1
      "REVIEW_REJECTED_ALL").1.documentId =
      (runPipeline envNull uuidsNull c9Input).1.documentId :=
  ids_assigned_once_stable envNull envNull uuidsNull uuidsNull c9Input
    "REVIEW_REJECTED_ALL" (by decide)

/-- C8: a parameter map whose `file_path` value contains the
path-traversal sequence `..` passes `_validate_params` (dots and slashes
are inside the allowed character class) and the call IS forwarded to the
target — the claimed ValidationFailed rejection never happens. -/
theorem gateway_forwards_path_traversal :
    safePathMatches "../../etc/passwd" = true ∧
    validateAndForward 0 "document_processor" "extract_text"
      [("file_path", PVal.str "../../etc/passwd")] =
      Except.ok ("document_processor", "extract_text",
        [("file_path", PVal.str "../../etc/passwd")]) :=
  ⟨rfl, rfl⟩

end Spec2Proof

